import Mathlib

/-!
Verification of the Mozart style checker (music_checker.py and
music_checker_smt.py) against its natural-language specification.

The two Python files implement the same pipeline: extract voice-pair facts
and harmonic facts from a parsed score, evaluate voice-leading and harmony
constraints (directly in music_checker.py, via a z3 delegation in
music_checker_smt.py), and aggregate violations against a threshold of 3.

Modelling conventions:
  - MIDI pitches are `ℤ` (Python ints), durations are `ℚ` (music21
    quarter-note lengths; the float literals 1.0 and 0.25 become 1 and 1/4).
  - Pitch-class sets (Python `set[int]`) become `Finset ℕ`.
  - The direct checker's `self.solver`, to which `check_voice_leading` adds
    `n1 == note1` / `n2 == note2` constraints and which persists across
    `verify_piece` calls, is modelled as an explicit list of
    (variable name, value) pairs threaded through the functions.
  - The SMT variant's z3 formulas are modelled by their satisfaction
    semantics: an assignment of integers to the generated integer variables
    and of booleans to the generated boolean aliases; the solver verdict is
    an oracle parameter constrained to agree with satisfiability.
  - A score input to `verify_piece` is modelled as `Except String`: either
    the extracted fact streams or the message of an exception raised during
    extraction/evaluation (the body of the `try`).
-/

namespace MusicVerification

/-- A voice-pair fact: (note1, note2, duration of the first note),
as produced by `extract_voice_pairs`. -/
abbrev VoicePair := ℤ × ℤ × ℚ

/-- The diagnostic string `f"Unusual leap ({interval} semitones) at position {i}"`. -/
def leapDiag (interval : ℕ) (i : ℕ) : String :=
  "Unusual leap (" ++ toString interval ++ " semitones) at position " ++ toString i

/-- The diagnostic string `f"Highly unusual dissonance in measure {i}"`. -/
def harmDiag (i : ℕ) : String :=
  "Highly unusual dissonance in measure " ++ toString i

/-! ### Fact extraction (identical in both files, lines 12-34) -/

/-- A note/chord event of one part, as seen by `extract_voice_pairs`. -/
inductive Event where
  | note (pitch : ℤ) (duration : ℚ)
  | chord (pitches : List ℤ) (duration : ℚ)

/-- The per-part list of effective notes built by `extract_voice_pairs`
(lines 16-28): a Note appends one (pitch, duration) entry; a Chord sorts its
pitches and, only when there are at least two of them, appends the lowest and
then the highest pitch, both with the chord's duration. -/
def effectiveNotes : List Event → List (ℤ × ℚ)
  | [] => []
  | .note p d :: rest => (p, d) :: effectiveNotes rest
  | .chord ps d :: rest =>
      (if 1 < (List.insertionSort (· ≤ ·) ps).length then
        [((List.insertionSort (· ≤ ·) ps).headD 0, d),
         ((List.insertionSort (· ≤ ·) ps).getLastD 0, d)]
       else []) ++ effectiveNotes rest

/-- The pairing loop of `extract_voice_pairs` (lines 30-32): one VoicePair per
adjacent pair of effective notes, carrying the duration of the first entry. -/
def adjacentPairs : List (ℤ × ℚ) → List VoicePair
  | [] => []
  | [_] => []
  | (p1, d1) :: (p2, d2) :: rest => (p1, p2, d1) :: adjacentPairs ((p2, d2) :: rest)

/-- `extract_voice_pairs`: concatenate each part's adjacent pairs, in part order. -/
def extract_voice_pairs (parts : List (List Event)) : List VoicePair :=
  parts.foldl (fun acc part => acc ++ adjacentPairs (effectiveNotes part)) []

/-! ### Direct voice-leading check (music_checker.py, lines 36-95) -/

/-- `is_arpeggiation_pattern` (music_checker.py, lines 72-84). -/
def is_arpeggiation_pattern (note1 note2 : ℤ) : Bool :=
  decide ((note2 - note1).natAbs ∈ ({12, 19, 24, 28, 31} : Finset ℕ))

/-- `is_dramatic_gesture` (music_checker.py, lines 86-95). -/
def is_dramatic_gesture (interval : ℕ) : Bool :=
  decide (interval ∈ ({29, 31, 36, 41} : Finset ℕ))

/-- The `max_leap` regime selection (music_checker.py, lines 51-54). -/
def max_leap (duration : ℚ) : ℕ := if 1 ≤ duration then 19 else 24

/-- The body of the `check_voice_leading` loop (music_checker.py, lines 46-68)
for the fact at index `i`: `none` when the iteration accepts the fact
(interval within the regime bound, or one of the three `continue` branches),
otherwise the appended diagnostic. -/
def factViolation (i : ℕ) (note1 note2 : ℤ) (duration : ℚ) : Option String :=
  if max_leap duration < (note2 - note1).natAbs then
    if is_arpeggiation_pattern note1 note2 then none
    else if is_dramatic_gesture (note2 - note1).natAbs then none
    else if duration < mkRat 1 4 then none
    else some (leapDiag (note2 - note1).natAbs i)
  else none

/-- `check_voice_leading` (music_checker.py, lines 36-70) with the mutable
`self.solver` made explicit: the loop adds `n1 == note1` and `n2 == note2`
to the solver (lines 40-44) and collects the violation diagnostics.
Returns (solver state, violations). -/
def checkVLStAux : List (String × ℤ) → ℕ → List VoicePair → List (String × ℤ) × List String
  | st, _, [] => (st, [])
  | st, i, (note1, note2, duration) :: rest =>
      let st1 := st ++ [("note_" ++ toString i ++ "_1", note1),
                        ("note_" ++ toString i ++ "_2", note2)]
      let r := checkVLStAux st1 (i + 1) rest
      match factViolation i note1 note2 duration with
      | some v => (r.1, v :: r.2)
      | none => r

/-- The violations returned by `check_voice_leading` for a fresh checker. -/
def check_voice_leading (vps : List VoicePair) : List String :=
  (checkVLStAux [] 0 vps).2

/-! ### Direct harmony check (music_checker.py, lines 97-136) -/

/-- The pairwise-interval set of one chord's pitch classes
(music_checker.py, line 131): `{(b - a) % 12 for a in pcs for b in pcs if b > a}`. -/
def pairIntervals (pcs : Finset ℕ) : Finset ℕ :=
  ((pcs ×ˢ pcs).filter (fun p => p.1 < p.2)).image (fun p => (p.2 - p.1) % 12)

/-- The chord loop of `check_harmony` (music_checker.py, lines 110-134),
threading the enumeration index: a chord with at least 3 distinct pitch
classes whose pairwise intervals contain 1, 6 and 10 contributes the
dissonance diagnostic. -/
def checkHarmonyAux : ℕ → List (Finset ℕ) → List String
  | _, [] => []
  | i, pcs :: rest =>
      (if 3 ≤ pcs.card then
        (if 1 ∈ pairIntervals pcs ∧ 6 ∈ pairIntervals pcs ∧ 10 ∈ pairIntervals pcs
         then [harmDiag i] else [])
       else []) ++ checkHarmonyAux (i + 1) rest

/-- `check_harmony` (music_checker.py), applied to the extracted list of
pitch-class sets. The tonic pitch class and the `allowed_pcs` set of
lines 114-127 are computed by the source but never used in the test. -/
def check_harmony (chords : List (Finset ℕ)) : List String :=
  checkHarmonyAux 0 chords

/-- The specification's per-fact harsh-dissonance predicate: at least 3
distinct pitch classes and a pairwise-interval set containing 1, 6 and 10. -/
def harshSignature (c : Finset ℕ) : Prop :=
  3 ≤ c.card ∧ 1 ∈ pairIntervals c ∧ 6 ∈ pairIntervals c ∧ 10 ∈ pairIntervals c

instance (c : Finset ℕ) : Decidable (harshSignature c) :=
  inferInstanceAs (Decidable
    (3 ≤ c.card ∧ 1 ∈ pairIntervals c ∧ 6 ∈ pairIntervals c ∧ 10 ∈ pairIntervals c))

/-! ### Verdict aggregation (music_checker.py, lines 138-164) -/

/-- Boolean substring test, modelling Python's `"pat" in v`. -/
def listIsInfix (p : List Char) : List Char → Bool
  | [] => p.isEmpty
  | c :: rest => p.isPrefixOf (c :: rest) || listIsInfix p rest

/-- `pat in s` for strings. -/
def strContains (s pat : String) : Bool := listIsInfix pat.data s.data

/-- The `significant_violations` filter of `verify_piece`
(music_checker.py, lines 154-156). -/
def significantFilter (v : String) : Bool :=
  (strContains v "Unusual leap" && strContains v "position") ||
    strContains v "Highly unusual dissonance"

/-- `verify_piece` (music_checker.py, lines 138-164), with the persistent
solver state explicit and the score modelled by the outcome of fact
extraction: `.error m` when the body of the `try` raises an exception with
message `m`, `.ok (voice pairs, chord pitch-class sets)` otherwise.
Returns (solver state, valid, violations). -/
def verify_piece (st : List (String × ℤ))
    (input : Except String (List VoicePair × List (Finset ℕ))) :
    List (String × ℤ) × Bool × List String :=
  match input with
  | .error m => (st, false, ["Analysis error: " ++ m])
  | .ok (vps, chords) =>
      let r := checkVLStAux st 0 vps
      let violations := r.2 ++ check_harmony chords
      let significant := violations.filter significantFilter
      (r.1, decide (significant.length ≤ 3), significant)

/-! ### SMT-delegated voice-leading check (music_checker_smt.py, lines 36-119)

The z3 formula built by `check_voice_leading` is modelled by its satisfaction
semantics.  For the fact at index `i` the source adds to one joint solver:
`note_i_1 == note1`, `note_i_2 == note2`, `interval_i == Abs(n2 - n1)`, and
`voice_leading_i == acceptable_intervals`.  An assignment is a map from the
generated integer variables to `ℤ` and from the boolean aliases to `Bool`. -/

/-- The integer variables generated by the SMT voice-leading check:
`note_{i}_1`, `note_{i}_2` and `interval_{i}` (the generated names are
injective in `i`, so the variables are indexed directly). -/
inductive VLVar where
  | noteFst (i : ℕ)
  | noteSnd (i : ℕ)
  | intervalV (i : ℕ)
deriving DecidableEq

/-- `is_arpeggiation_context` (music_checker_smt.py, lines 107-110), evaluated
on the concrete Python integers while the formula is being built. -/
def is_arpeggiation_context (note1 note2 : ℤ) : Bool :=
  decide ((note2 - note1).natAbs ∈ ({12, 19, 24} : Finset ℕ))

/-- `is_dramatic_gesture_formula` (music_checker_smt.py, lines 112-119),
as the value of the returned z3 disjunction at interval value `v`. -/
def is_dramatic_gesture_formula (v : ℤ) : Bool :=
  decide (v = 29) || decide (v = 31) || decide (v = 36) || decide (v = 41)

/-- Value of the `acceptable_intervals` formula for the fact at index `i`
(music_checker_smt.py, lines 60-71) under the assignment `σ`: the duration
branch is taken in Python, the interval tests are z3 subformulas. -/
def acceptableEval (σ : VLVar → ℤ) (i : ℕ) (note1 note2 : ℤ) (duration : ℚ) : Bool :=
  if 1 ≤ duration then
    decide (σ (.intervalV i) ≤ 12) || decide (σ (.intervalV i) = 19) ||
      (decide (σ (.intervalV i) = 24) && is_arpeggiation_context note1 note2)
  else
    decide (σ (.intervalV i) ≤ 24) || decide (σ (.intervalV i) = 31) ||
      is_dramatic_gesture_formula (σ (.intervalV i))

/-- The four constraints the joint solver receives for the fact at index `i`
(music_checker_smt.py, lines 49-73), under assignment `σ`, `β`. -/
def vlBlockHolds (σ : VLVar → ℤ) (β : ℕ → Bool) (i : ℕ) (f : VoicePair) : Prop :=
  σ (.noteFst i) = f.1 ∧ σ (.noteSnd i) = f.2.1 ∧
    σ (.intervalV i) = |σ (.noteSnd i) - σ (.noteFst i)| ∧
    β i = acceptableEval σ i f.1 f.2.1 f.2.2

/-- Satisfiability of the joint formula `s` of the SMT `check_voice_leading`. -/
def vlFormulaSat (vps : List VoicePair) : Prop :=
  ∃ σ : VLVar → ℤ, ∃ β : ℕ → Bool,
    ∀ i < vps.length, vlBlockHolds σ β i (vps.getD i (0, 0, 0))

/-- The assignment that sets every generated variable to the concrete value
the formula equates it with. -/
def vlCanonAssign (vps : List VoicePair) : VLVar → ℤ
  | .noteFst i => (vps.getD i (0, 0, 0)).1
  | .noteSnd i => (vps.getD i (0, 0, 0)).2.1
  | .intervalV i => |(vps.getD i (0, 0, 0)).2.1 - (vps.getD i (0, 0, 0)).1|

/-- The boolean aliases forced by the canonical assignment. -/
def vlCanonBools (vps : List VoicePair) (i : ℕ) : Bool :=
  acceptableEval (vlCanonAssign vps) i (vps.getD i (0, 0, 0)).1
    (vps.getD i (0, 0, 0)).2.1 (vps.getD i (0, 0, 0)).2.2

/-- The joint voice-leading formula only defines each variable, so it is
always satisfiable. -/
theorem vlFormulaSat_always (vps : List VoicePair) : vlFormulaSat vps :=
  ⟨vlCanonAssign vps, vlCanonBools vps, fun _ _ => ⟨rfl, rfl, rfl, rfl⟩⟩

/-- `check_voice_leading` of music_checker_smt.py (lines 36-105).
`solverSat` is the verdict z3 returns for the joint formula (`true` for sat);
`isoSat` gives the verdicts of the per-constraint isolation re-checks run in
the `unsat` branch.  Violations are only produced in that branch. -/
def smt_check_voice_leading (vps : List VoicePair) (solverSat : Bool)
    (isoSat : ℕ → Bool) : List String :=
  if solverSat then []
  else
    ((List.range vps.length).filter isoSat).map
      (fun i => leapDiag ((vps.getD i (0, 0, 0)).2.1 - (vps.getD i (0, 0, 0)).1).natAbs i)

/-! ### SMT-delegated harmony check (music_checker_smt.py, lines 121-190) -/

/-- The integer variables generated by the SMT harmony check:
`chord_{i}_pc_{j}` and `interval_{i}_{a}_{b}`. -/
inductive HVar where
  | pcV (i j : ℕ)
  | intV (i a b : ℕ)
deriving DecidableEq

/-- z3 term ASTs as far as the harmony check manipulates them: a variable or
an integer constant. -/
inductive ZTerm where
  | var (v : HVar)
  | const (z : ℤ)
deriving DecidableEq

/-- Python truthiness of the z3 expression `e1 == e2` when both sides are
symbolic: z3's `__bool__` falls back to structural equality of the two ASTs. -/
def pyEqTruth (e1 e2 : ZTerm) : Bool := decide (e1 = e2)

/-- The index pairs visited by the double loop over `chord_vars`
(music_checker_smt.py, lines 157-159): all `(a, b)` with `a < b < n`. -/
def pairIdxList (n : ℕ) : List (ℕ × ℕ) :=
  (List.range n).foldr
    (fun a acc => (((List.range n).filter (fun b => a < b)).map (fun b => (a, b))) ++ acc) []

/-- The Python variable `harsh_dissonance` after the double loop
(music_checker_smt.py, lines 156-165): the guard
`interval_var == 1 and interval_var == 6 and interval_var == 10` coerces
symbolic equalities through Python truthiness, so the flag is never set. -/
def harshDissonanceFlag (i n : ℕ) : Bool :=
  (pairIdxList n).foldl
    (fun acc p =>
      if pyEqTruth (.var (.intV i p.1 p.2)) (.const 1) &&
          pyEqTruth (.var (.intV i p.1 p.2)) (.const 6) &&
          pyEqTruth (.var (.intV i p.1 p.2)) (.const 10)
      then true else acc)
    false

theorem harshDissonanceFlag_false (i n : ℕ) : harshDissonanceFlag i n = false := by
  unfold harshDissonanceFlag
  generalize pairIdxList n = l
  induction l with
  | nil => rfl
  | cons p rest ih => simp [pyEqTruth, ih]

/-- The constraints the joint harmony solver receives for the chord at index
`i` when it has at least 3 pitch classes (music_checker_smt.py, lines
144-167): the pitch-class variables are equated with the concrete values, the
pairwise interval variables with `(b - a) % 12`, and the boolean alias with
`Not(harsh_dissonance)`. -/
def hBlockHolds (σ : HVar → ℤ) (β : ℕ → Bool) (i : ℕ) (pcs : List ℕ) : Prop :=
  (∀ j < pcs.length, σ (.pcV i j) = (pcs.getD j 0 : ℤ)) ∧
    (∀ p ∈ pairIdxList pcs.length,
      σ (.intV i p.1 p.2) = (σ (.pcV i p.2) - σ (.pcV i p.1)) % 12) ∧
    β i = !(harshDissonanceFlag i pcs.length)

/-- Satisfiability of the joint formula of the SMT `check_harmony`.  Each
chord is the list of its pitch classes in the iteration order of the Python
set; chords with fewer than 3 pitch classes are skipped by the source. -/
def hFormulaSat (chords : List (List ℕ)) : Prop :=
  ∃ σ : HVar → ℤ, ∃ β : ℕ → Bool,
    ∀ i < chords.length, 3 ≤ (chords.getD i []).length →
      hBlockHolds σ β i (chords.getD i [])

/-- The canonical satisfying assignment for the harmony formula. -/
def hCanonAssign (chords : List (List ℕ)) : HVar → ℤ
  | .pcV i j => ((chords.getD i []).getD j 0 : ℤ)
  | .intV i a b =>
      (((chords.getD i []).getD b 0 : ℤ) - ((chords.getD i []).getD a 0 : ℤ)) % 12

/-- The joint harmony formula only defines each variable, so it is always
satisfiable. -/
theorem hFormulaSat_always (chords : List (List ℕ)) : hFormulaSat chords :=
  ⟨hCanonAssign chords, fun i => !(harshDissonanceFlag i (chords.getD i []).length),
    fun _ _ _ => ⟨fun _ _ => rfl, fun _ _ => rfl, rfl⟩⟩

/-- `check_harmony` of music_checker_smt.py (lines 121-190). `solverSat` is
the z3 verdict for the joint formula, `isoSat` the verdicts of the isolation
re-checks of the `unsat` branch, which alone produces violations. -/
def smt_check_harmony (chords : List (List ℕ)) (solverSat : Bool)
    (isoSat : ℕ → Bool) : List String :=
  if solverSat then []
  else
    (((List.range chords.length).filter
        (fun i => 3 ≤ (chords.getD i []).length)).filter isoSat).map harmDiag

/-- `verify_piece` of music_checker_smt.py (lines 192-213): no significance
filter, fresh solvers per call (no carried state), same error path. -/
def smt_verify_piece (input : Except String (List VoicePair × List (List ℕ)))
    (vlSat hSat : Bool) (vlIso hIso : ℕ → Bool) : Bool × List String :=
  match input with
  | .error m => (false, ["Analysis error: " ++ m])
  | .ok (vps, chords) =>
      let v := smt_check_voice_leading vps vlSat vlIso ++ smt_check_harmony chords hSat hIso
      (decide (v.length ≤ 3), v)

/-! ### Helper lemmas -/

/-- Characterization of one iteration of the direct voice-leading loop. -/
theorem factViolation_eq_none_iff (i : ℕ) (note1 note2 : ℤ) (d : ℚ) :
    factViolation i note1 note2 d = none ↔
      ((note2 - note1).natAbs ≤ max_leap d ∨ is_arpeggiation_pattern note1 note2 = true ∨
        is_dramatic_gesture (note2 - note1).natAbs = true ∨ d < mkRat 1 4) := by
  unfold factViolation
  by_cases h1 : max_leap d < (note2 - note1).natAbs
  · rw [if_pos h1]
    by_cases h2 : is_arpeggiation_pattern note1 note2
    · simp [h2]
    · by_cases h3 : is_dramatic_gesture (note2 - note1).natAbs
      · simp [h2, h3]
      · by_cases h4 : d < mkRat 1 4
        · simp [h2, h3, h4]
        · simp only [h2, h3, h4, Bool.not_eq_true] at *
          simp [h2, h3, h4, Nat.not_le.mpr h1]
  · simp [h1, Nat.not_lt.mp h1]

/-- The direct check of a single voice pair produces the fact's own verdict. -/
theorem check_voice_leading_singleton (note1 note2 : ℤ) (d : ℚ) :
    check_voice_leading [(note1, note2, d)] = [] ↔ factViolation 0 note1 note2 d = none := by
  cases hfv : factViolation 0 note1 note2 d <;>
    simp [check_voice_leading, checkVLStAux, hfv]

/-- The violations computed by the direct voice-leading loop do not depend on
the solver state it threads. -/
theorem checkVLStAux_snd_independent (vps : List VoicePair)
    (st st' : List (String × ℤ)) (i : ℕ) :
    (checkVLStAux st i vps).2 = (checkVLStAux st' i vps).2 := by
  induction vps generalizing st st' i with
  | nil => rfl
  | cons f rest ih =>
      obtain ⟨n1, n2, d⟩ := f
      simp only [checkVLStAux]
      cases factViolation i n1 n2 d <;> simp <;> exact ih _ _ _

/-- The index-threading harmony loop, as a filter of the enumerated stream. -/
theorem checkHarmonyAux_eq_filter (l : List (Finset ℕ)) (n : ℕ) :
    checkHarmonyAux n l =
      ((List.enumFrom n l).filter (fun p => decide (harshSignature p.2))).map
        (fun p => harmDiag p.1) := by
  induction l generalizing n with
  | nil => rfl
  | cons c rest ih =>
      simp only [checkHarmonyAux, List.enumFrom, List.filter_cons, ih]
      by_cases h3 : 3 ≤ c.card
      · by_cases hm : 1 ∈ pairIntervals c ∧ 6 ∈ pairIntervals c ∧ 10 ∈ pairIntervals c
        · simp [h3, hm, harshSignature]
        · simp [h3, hm, harshSignature]
      · simp [h3, harshSignature]

/-! ### Claims -/

/-- C1 (code-bug exhibit): the two evaluation strategies do not classify every
fact identically.  On the single voice pair (60, 85, 2.0) — interval 25 in the
long regime — the direct strategy emits a violation diagnostic, while the
SMT-delegation strategy's joint formula is satisfiable, so a correct solver
answers sat and the strategy emits nothing. -/
theorem direct_and_smt_disagree_on_unusual_leap :
    check_voice_leading [((60 : ℤ), (85 : ℤ), (2 : ℚ))] =
      ["Unusual leap (25 semitones) at position 0"] ∧
    vlFormulaSat [((60 : ℤ), (85 : ℤ), (2 : ℚ))] ∧
    ∀ isoSat : ℕ → Bool,
      smt_check_voice_leading [((60 : ℤ), (85 : ℤ), (2 : ℚ))] true isoSat = [] :=
  ⟨by decide, vlFormulaSat_always _, fun _ => rfl⟩

/-- C2 (counterexample): the voice pair (60, 75, 2.0) — interval 15, duration
≥ 1 — receives no diagnostic from check_voice_leading, although the claimed
acceptance condition (interval ≤ 12, or = 19, or = 24, or in the exception
sets, or duration < 0.25) is false at it. -/
theorem long_regime_interval_fifteen_accepted :
    check_voice_leading [((60 : ℤ), (75 : ℤ), (2 : ℚ))] = [] ∧
    ¬((((75 : ℤ) - 60).natAbs ≤ 12) ∨ (((75 : ℤ) - 60).natAbs = 19) ∨
      (((75 : ℤ) - 60).natAbs = 24) ∨ is_arpeggiation_pattern 60 75 = true ∨
      is_dramatic_gesture ((75 : ℤ) - 60).natAbs = true ∨ ((2 : ℚ) < mkRat 1 4)) :=
  ⟨by decide, by decide⟩

/-- C2 (amended): for firstDuration ≥ 1 a voice pair receives no diagnostic
iff its interval is at most 19, or lies in the arpeggiation set
{12, 19, 24, 28, 31} or the dramatic set {29, 31, 36, 41}, or
firstDuration < 0.25 (vacuous under the regime hypothesis); in particular an
interval strictly between 12 and 19 is accepted. -/
theorem long_regime_acceptance_characterization (note1 note2 : ℤ) (d : ℚ)
    (h : 1 ≤ d) :
    check_voice_leading [(note1, note2, d)] = [] ↔
      ((note2 - note1).natAbs ≤ 19 ∨ is_arpeggiation_pattern note1 note2 = true ∨
        is_dramatic_gesture (note2 - note1).natAbs = true ∨ d < mkRat 1 4) := by
  rw [check_voice_leading_singleton, factViolation_eq_none_iff]
  have hml : max_leap d = 19 := by simp [max_leap, h]
  rw [hml]

theorem long_regime_acceptance_characterization_witness :
    (1 : ℚ) ≤ 2 ∧
      (check_voice_leading [((60 : ℤ), (75 : ℤ), (2 : ℚ))] = [] ↔
        ((((75 : ℤ) - 60).natAbs ≤ 19) ∨ is_arpeggiation_pattern 60 75 = true ∨
          is_dramatic_gesture ((75 : ℤ) - 60).natAbs = true ∨ ((2 : ℚ) < mkRat 1 4))) :=
  ⟨by decide, long_regime_acceptance_characterization 60 75 2 (by decide)⟩

/-- C3: check_harmony emits one dissonance diagnostic, carrying the stream
index, exactly for the harmonic facts with the harsh signature (at least 3
distinct pitch classes and pairwise intervals containing 1, 6 and 10); facts
with fewer than 3 pitch classes are never flagged; {0, 1, 6, 10} is flagged. -/
theorem check_harmony_flags_iff_harsh_signature (chords : List (Finset ℕ)) :
    check_harmony chords =
      ((chords.enum.filter (fun p => decide (harshSignature p.2))).map
        (fun p => harmDiag p.1)) ∧
    (∀ c : Finset ℕ, c.card < 3 → ¬harshSignature c) ∧
    harshSignature ({0, 1, 6, 10} : Finset ℕ) := by
  refine ⟨?_, fun c hc hsig => absurd hsig.1 (by omega), by decide⟩
  rw [check_harmony, checkHarmonyAux_eq_filter]
  rfl

theorem check_harmony_flags_iff_harsh_signature_witness :
    Finset.card ({0, 1} : Finset ℕ) < 3 ∧ ¬harshSignature ({0, 1} : Finset ℕ) :=
  ⟨by decide, (check_harmony_flags_iff_harsh_signature []).2.1 {0, 1} (by decide)⟩

/-- C4 (counterexample): on the error-catching return path the invariant
"valid iff at most 3 violations" fails: the returned list has one element but
valid is false. -/
theorem verdict_invariant_fails_on_error_path :
    ¬(((verify_piece [] (.error "boom")).2.1 = true) ↔
      (verify_piece [] (.error "boom")).2.2.length ≤ 3) := by
  decide

/-- C4 (amended): on every non-error analysis, in both variants, the returned
verdict satisfies: valid iff the returned violation list has at most 3
entries; four leap violations give valid = false, three give valid = true.
On the error path the code instead returns valid = false with a one-element
list. -/
theorem verdict_invariant_on_ok_path :
    (∀ (st : List (String × ℤ)) (vps : List VoicePair) (chords : List (Finset ℕ)),
      ((verify_piece st (.ok (vps, chords))).2.1 = true ↔
        (verify_piece st (.ok (vps, chords))).2.2.length ≤ 3)) ∧
    (∀ (vps : List VoicePair) (chords : List (List ℕ)) (vlSat hSat : Bool)
        (vlIso hIso : ℕ → Bool),
      ((smt_verify_piece (.ok (vps, chords)) vlSat hSat vlIso hIso).1 = true ↔
        (smt_verify_piece (.ok (vps, chords)) vlSat hSat vlIso hIso).2.length ≤ 3)) ∧
    (verify_piece [] (.ok (List.replicate 4 ((0 : ℤ), (25 : ℤ), (1 : ℚ)), []))).2.1 = false ∧
    (verify_piece [] (.ok (List.replicate 3 ((0 : ℤ), (25 : ℤ), (1 : ℚ)), []))).2.1 = true := by
  refine ⟨?_, ?_, by decide, by decide⟩
  · intro st vps chords
    simp [verify_piece]
  · intro vps chords vlSat hSat vlIso hIso
    simp [smt_verify_piece]

/-- C5: when fact extraction or constraint evaluation raises an exception with
message m, both verify_piece variants catch it and return exactly
(false, ["Analysis error: " + m]). -/
theorem analysis_error_path_returns_single_diagnostic (st : List (String × ℤ))
    (m : String) (vlSat hSat : Bool) (vlIso hIso : ℕ → Bool) :
    verify_piece st (.error m) = (st, false, ["Analysis error: " ++ m]) ∧
    smt_verify_piece (.error m) vlSat hSat vlIso hIso =
      (false, ["Analysis error: " ++ m]) :=
  ⟨rfl, rfl⟩

/-- C6: a voice pair whose interval lies in the union of the arpeggiation set
{12, 19, 24, 28, 31} and the dramatic set {29, 31, 36, 41} is accepted by the
direct checker at every position and for every duration. -/
theorem exception_intervals_always_accepted (i : ℕ) (note1 note2 : ℤ) (d : ℚ)
    (h : (note2 - note1).natAbs ∈ ({12, 19, 24, 28, 31, 29, 36, 41} : Finset ℕ)) :
    factViolation i note1 note2 d = none ∧ check_voice_leading [(note1, note2, d)] = [] := by
  have hp : is_arpeggiation_pattern note1 note2 = true ∨
      is_dramatic_gesture (note2 - note1).natAbs = true := by
    simp only [Finset.mem_insert, Finset.mem_singleton] at h
    simp only [is_arpeggiation_pattern, is_dramatic_gesture, decide_eq_true_eq,
      Finset.mem_insert, Finset.mem_singleton]
    rcases h with h | h | h | h | h | h | h | h <;> simp [h]
  have hall : ∀ j : ℕ, factViolation j note1 note2 d = none := fun j =>
    (factViolation_eq_none_iff j note1 note2 d).mpr
      (by rcases hp with hp | hp
          · exact Or.inr (Or.inl hp)
          · exact Or.inr (Or.inr (Or.inl hp)))
  exact ⟨hall i, (check_voice_leading_singleton note1 note2 d).mpr (hall 0)⟩

theorem exception_intervals_always_accepted_witness :
    ((89 : ℤ) - 60).natAbs ∈ ({12, 19, 24, 28, 31, 29, 36, 41} : Finset ℕ) ∧
      (factViolation 0 60 89 2 = none ∧ check_voice_leading [((60 : ℤ), (89 : ℤ), (2 : ℚ))] = []) :=
  ⟨by decide, exception_intervals_always_accepted 0 60 89 2 (by decide)⟩

/-- C7 (counterexample): a part consisting of a note followed by a one-pitch
chord yields zero VoicePairFacts, not one: the one-pitch chord contributes no
effective-note entry at all. -/
theorem single_pitch_chord_scenario_yields_no_fact :
    (extract_voice_pairs [[Event.note 60 1, Event.chord [64] 1]]).length ≠ 1 ∧
    effectiveNotes [Event.chord [64] 1] = [] :=
  ⟨by decide, by decide⟩

/-- C7 (amended): a chord event of exactly one pitch contributes no entry to
the part's effective-note list (unlike a plain note), so a part consisting of
a note followed by a one-pitch chord yields no VoicePairFact. -/
theorem single_pitch_chord_contributes_nothing :
    (∀ (p : ℤ) (d : ℚ) (rest : List Event),
      effectiveNotes (Event.chord [p] d :: rest) = effectiveNotes rest) ∧
    (∀ (p1 p : ℤ) (d1 d : ℚ),
      extract_voice_pairs [[Event.note p1 d1, Event.chord [p] d]] = []) := by
  have h1 : ∀ (p : ℤ) (d : ℚ) (rest : List Event),
      effectiveNotes (Event.chord [p] d :: rest) = effectiveNotes rest := by
    intro p d rest
    simp [effectiveNotes, List.insertionSort, List.orderedInsert]
  refine ⟨h1, fun p1 p d1 d => ?_⟩
  simp [extract_voice_pairs, effectiveNotes, h1 p d [], adjacentPairs]

/-- C8 (counterexample): the direct checker's solver constraints do persist
across verify_piece calls: after one successful analysis the solver state is
no longer the initial one, and a second analysis of the same input doubles
the recorded equality constraints. -/
theorem solver_state_persists_across_calls :
    (verify_piece [] (.ok ([((60 : ℤ), (61 : ℤ), (1 : ℚ))], []))).1 ≠ [] ∧
    (verify_piece (verify_piece [] (.ok ([((60 : ℤ), (61 : ℤ), (1 : ℚ))], []))).1
        (.ok ([((60 : ℤ), (61 : ℤ), (1 : ℚ))], []))).1 =
      [("note_0_1", 60), ("note_0_2", 61), ("note_0_1", 60), ("note_0_2", 61)] :=
  ⟨by decide, by decide⟩

/-- C8 (amended): the solver state carried between calls never influences the
observable results: the diagnostics of check_voice_leading and the
(valid, violations) part of verify_piece are the same from any carried state
as from a fresh checker. -/
theorem diagnostics_independent_of_carried_state :
    (∀ (st st' : List (String × ℤ)) (i : ℕ) (vps : List VoicePair),
      (checkVLStAux st i vps).2 = (checkVLStAux st' i vps).2) ∧
    (∀ (st st' : List (String × ℤ))
        (input : Except String (List VoicePair × List (Finset ℕ))),
      (verify_piece st input).2 = (verify_piece st' input).2) := by
  refine ⟨fun st st' i vps => checkVLStAux_snd_independent vps st st' i, ?_⟩
  intro st st' input
  cases input with
  | error m => rfl
  | ok p =>
      obtain ⟨vps, chords⟩ := p
      simp [verify_piece, checkVLStAux_snd_independent vps st st' 0]

/-- C9: the SMT variant's check_voice_leading returns the empty list for every
input: its joint formula only equates fresh variables with concrete values and
defines each boolean alias, so it is satisfiable, a correct solver answers
sat, and the violation-emitting unsat branch is unreachable. -/
theorem smt_voice_leading_always_empty (vps : List VoicePair) (solverSat : Bool)
    (isoSat : ℕ → Bool) (hsolver : solverSat = true ↔ vlFormulaSat vps) :
    smt_check_voice_leading vps solverSat isoSat = [] := by
  have hs : solverSat = true := hsolver.mpr (vlFormulaSat_always vps)
  simp [smt_check_voice_leading, hs]

theorem smt_voice_leading_always_empty_witness :
    smt_check_voice_leading [((60 : ℤ), (85 : ℤ), (2 : ℚ))] true (fun _ => true) = [] :=
  smt_voice_leading_always_empty [(60, 85, 2)] true (fun _ => true)
    (iff_of_true rfl (vlFormulaSat_always _))

/-- C10: the SMT variant's check_harmony never emits a dissonance diagnostic:
the harsh-dissonance guard compares the symbolic interval variable with the
constants 1, 6 and 10 through Python truthiness and can never be true, so
harsh_dissonance stays false, every harmony alias is defined as true, the
joint formula is satisfiable, a correct solver answers sat, and the returned
violation list is empty. -/
theorem smt_harmony_always_empty (chords : List (List ℕ)) (solverSat : Bool)
    (isoSat : ℕ → Bool) (hsolver : solverSat = true ↔ hFormulaSat chords) :
    (∀ i n : ℕ, harshDissonanceFlag i n = false) ∧
      smt_check_harmony chords solverSat isoSat = [] := by
  have hs : solverSat = true := hsolver.mpr (hFormulaSat_always chords)
  exact ⟨harshDissonanceFlag_false, by simp [smt_check_harmony, hs]⟩

theorem smt_harmony_always_empty_witness :
    smt_check_harmony [[0, 1, 6, 10]] true (fun _ => true) = [] :=
  (smt_harmony_always_empty [[0, 1, 6, 10]] true (fun _ => true)
    (iff_of_true rfl (hFormulaSat_always _))).2

end MusicVerification
